import Mathlib

/-!
Verification of the scVAE GaussianMixtureVariationalAutoencoder core
(src/models/gaussian_mixture_variational_autoencoder.py) against its
natural-language specification.

The embedding is shallow: the arithmetic tail of the `loss` method, the
argument validation of `evaluate`, the configuration prefix of `__init__`,
the `name` property, and the control flow of `train` (short-circuiting,
NaN abort, the per-epoch early-stopping / best-checkpoint monitoring) are
translated into executable Lean functions.  Tensor-valued quantities that
the surrounding TensorFlow graph produces (per-example KL contributions,
reconstruction log-likelihood means, validation ELBO values, the NaN-ness
of an observed batch loss) are taken as inputs, since the claims under
study are about how the code combines them, not about the numerics of the
network itself.  Real-valued machine floats are modelled as rationals;
wall-clock durations are abstracted to a tag recording which of the two
kinds of value the code stores ("nan" or a measured duration).
-/

namespace SCVAE

/-- Model of tf.losses.compute_weighted_loss with the default
SUM_BY_NONZERO_WEIGHTS reduction: the weighted sum of the losses divided
by the number of non-zero weights, and 0 when every weight is zero. -/
def weightedLoss (losses weights : List ℚ) : ℚ :=
  let numPresent := (weights.filter (fun w => w ≠ 0)).length
  if numPresent = 0 then 0
  else (List.zipWith (fun l w => l * w) losses weights).sum / numPresent

/-- Model of the alpha coefficient of the classification loss,
tf.where(N_l > 0, clf_weight * (2 + 2 * N_l), 0) in loss(). -/
def alphaOf (clfWeight nl : ℚ) : ℚ :=
  if nl > 0 then clfWeight * (2 + 2 * nl) else 0

/-- Per-batch inputs to the tail of GaussianMixtureVariationalAutoencoder
.loss().  The lists are indexed by batch example: KL_z_sum is the value of
tf.add_n(KL_z_mean) (the responsibility-weighted KL_z contribution summed
over the K clusters), KL_y_each is the per-example cluster-assignment KL
(log K minus the posterior entropy for the uniform prior), log_p_sum is
tf.add_n(log_p_x_given_z_mean).  clf_mask holds the 0/1 classification
mask.  p_y_entropy stands for the prior entropy H[p(y)], which the code
computes as numpy.log(K) when the prior is uniform. -/
structure BatchData where
  KL_z_sum : List ℚ
  KL_y_each : List ℚ
  log_p_sum : List ℚ
  clf_mask : List ℚ
  clf_error : ℚ
  warm_up_weight : ℚ
  kl_weight : ℚ
  clf_weight : ℚ
  proportion_of_free_KL_nats : ℚ
  p_y_entropy : ℚ
  deriving Repr

/-- Scalar nodes produced by GaussianMixtureVariationalAutoencoder.loss().
KL_y is the unclipped masked cluster-assignment KL that the training and
evaluation loops fetch for the learning curves; KL_y_modified is the
free-nats-floored variant entering ELBO_weighted only. -/
structure LossOutputs where
  N_l : ℚ
  alpha : ℚ
  KL_z : ℚ
  KL_y : ℚ
  KL_y_threshold : ℚ
  KL_y_modified : ℚ
  KL : ℚ
  ENRE : ℚ
  ELBO : ℚ
  CLF_ERROR : ℚ
  ELBO_weighted : ℚ
  total_loss : ℚ
  deriving Repr

/-- Shallow embedding of the tail of loss() (source lines 1023 to 1084),
in the order the code builds the nodes: the unlabeled mask, N_l and alpha,
the masked KL_z, KL_y and ENRE means, the free-nats floor on KL_y, the
monitored KL and ELBO, and the weighted training objective. -/
def lossEngine (b : BatchData) : LossOutputs :=
  let mask_out_labeled := b.clf_mask.map (fun m => 1 - m)
  let nl := b.clf_mask.sum
  let alpha := alphaOf b.clf_weight nl
  let klz := weightedLoss b.KL_z_sum mask_out_labeled
  let kly := weightedLoss b.KL_y_each mask_out_labeled
  let klyThreshold := b.proportion_of_free_KL_nats * b.p_y_entropy
  let klyModified :=
    if b.proportion_of_free_KL_nats ≠ 0 then
      if kly > klyThreshold then kly else klyThreshold
    else kly
  let kl := klz + kly
  let enre := weightedLoss b.log_p_sum mask_out_labeled
  let elbo := enre - kl
  let elboWeighted := enre - b.warm_up_weight * b.kl_weight * (klz + klyModified)
  { N_l := nl
    alpha := alpha
    KL_z := klz
    KL_y := kly
    KL_y_threshold := klyThreshold
    KL_y_modified := klyModified
    KL := kl
    ENRE := enre
    ELBO := elbo
    CLF_ERROR := b.clf_error
    ELBO_weighted := elboWeighted
    total_loss := elboWeighted - alpha * b.clf_error }

/-- Python exception values that the modelled code paths can raise. -/
inductive PyError where
  | valueError (msg : String)
  | keyError (key : String)
  | typeError (msg : String)
  | unboundLocalError (localName : String)
  deriving Repr, DecidableEq

/-- Model of the Python expression sub in s (substring containment). -/
def strContains (s sub : String) : Bool :=
  (s.splitOn sub).length > 1

/-- Argument forms accepted for the output_versions parameter of
evaluate(): the sentinel "all", a bare non-list value, or a list. -/
inductive OutputVersionsArg where
  | all
  | single (v : String)
  | explicitList (vs : List String)
  deriving Repr, DecidableEq

/-- Shallow embedding of the output_versions validation at the top of
evaluate() (source lines 2331 to 2342): "all" expands to the three kinds,
a bare value is wrapped in a list, and an explicit list is rejected with a
ValueError when it has more than three entries or duplicate entries. -/
def resolveOutputVersions : OutputVersionsArg → Except PyError (List String)
  | .all => .ok ["transformed", "reconstructed", "latent"]
  | .single v => .ok [v]
  | .explicitList vs =>
    if vs.length > 3 then
      .error (.valueError "Can only output at most 3 sets")
    else if vs.length ≠ vs.dedup.length then
      .error (.valueError "Cannot output duplicate sets")
    else
      .ok vs

/-- Outcome of the evaluate() argument/checkpoint phase: the returned
value (an exception, or one output slot per requested kind, populated when
a checkpoint was restored and None otherwise) together with whether the
checkpoint state of the log directory was ever read. -/
structure EvalResult where
  result : Except PyError (List (Option Unit))
  checkpointTouched : Bool
  deriving Repr

/-- Shallow embedding of the control flow of evaluate() around argument
validation and checkpoint loading (source lines 2331 to 2342 and 2453 to
2481): invalid output_versions raise before tf.train.get_checkpoint_state
is called; with a valid request the checkpoint state is read, and when no
checkpoint exists the method prints a "not trained" notice and returns a
None entry per requested output kind instead of raising. -/
def evaluate (ov : OutputVersionsArg) (checkpointExists : Bool) : EvalResult :=
  match resolveOutputVersions ov with
  | .error e => { result := .error e, checkpointTouched := false }
  | .ok vs =>
    if checkpointExists then
      { result := .ok (vs.map fun _ => some ()), checkpointTouched := true }
    else
      { result := .ok (vs.map fun _ => none), checkpointTouched := true }

/-- Keys of the distributions registry in src/distributions/__init__.py;
any other key (including Python None, rendered "None") raises KeyError. -/
def validDistributionNames : List String :=
  ["gaussian", "gaussian mixture", "categorical", "bernoulli", "poisson",
   "constrained poisson", "pareto", "generalised pareto", "multinomial",
   "zero-inflated poisson", "negative binomial",
   "zero-inflated negative binomial"]

/-- Arguments of GaussianMixtureVariationalAutoencoder.__init__ that the
modelled configuration prefix reads, with the constructor defaults
recorded in defaultInitArgs below.  prior_probabilities models the
optional dict with a method name and a values list; sample-count dicts
are modelled as (training, evaluation) pairs. -/
structure InitArgs where
  feature_size : ℕ
  latent_size : ℕ
  hidden_sizes : List ℕ
  number_of_monte_carlo_samples : ℕ × ℕ
  number_of_importance_samples : ℕ × ℕ
  analytical_kl_term : Bool
  prior_probabilities : Option (String × List ℚ)
  number_of_latent_clusters : ℕ
  proportion_of_free_KL_nats : ℚ
  reconstruction_distribution : Option String
  number_of_reconstruction_classes : Option ℤ
  batch_normalisation : Bool
  dropout_keep_probabilities : List ℚ
  count_sum : Bool
  number_of_warm_up_epochs : ℕ
  kl_weight : ℚ
  clf_weight : ℚ
  number_of_labeled_examples : ℕ
  deriving Repr, DecidableEq

/-- Configuration attributes set by the __init__ prefix before graph
construction; exactly the attributes the name property reads. -/
structure ModelConfig where
  modelType : String
  latent_distribution_name : String
  prior_probabilities_method : String
  K : ℕ
  analytical_kl_term : Bool
  proportion_of_free_KL_nats : ℚ
  reconstruction_distribution_name : String
  number_of_reconstruction_classes : ℤ
  k_max : ℤ
  batch_normalisation : Bool
  dropout_parts : List String
  count_sum_feature : Bool
  latent_size : ℕ
  hidden_sizes : List ℕ
  mc_training : ℕ
  iw_training : ℕ
  kl_weight_value : ℚ
  clf_weight_value : ℚ
  number_of_labeled_examples : ℕ
  number_of_warm_up_epochs : ℕ
  deriving Repr, DecidableEq

/-- Shallow embedding of the attribute-setting prefix of __init__ (source
lines 59 to 178), in source order: the prior-probabilities handling, the
distributions registry lookup for reconstruction_distribution (KeyError
for an unknown or missing name, reached before the reconstruction-class
count is used), and number_of_reconstruction_classes + 1 (TypeError when
the argument is Python None). -/
def gmvaeInit (a : InitArgs) : Except PyError ModelConfig :=
  let priorMethod :=
    match a.prior_probabilities with
    | none => "uniform"
    | some mv => mv.1
  let priorValues :=
    match a.prior_probabilities with
    | none => ([] : List ℚ)
    | some mv => mv.2
  let bigK := if priorValues ≠ [] then priorValues.length
              else a.number_of_latent_clusters
  match a.reconstruction_distribution with
  | none => .error (.keyError "None")
  | some dn =>
    if dn ∈ validDistributionNames then
      match a.number_of_reconstruction_classes with
      | none => .error (.typeError "unsupported operand type for +: NoneType and int")
      | some kmax =>
        .ok
          { modelType := "GMVAE"
            latent_distribution_name := "gaussian mixture"
            prior_probabilities_method := priorMethod
            K := bigK
            analytical_kl_term := a.analytical_kl_term
            proportion_of_free_KL_nats := a.proportion_of_free_KL_nats
            reconstruction_distribution_name := dn
            number_of_reconstruction_classes := kmax + 1
            k_max := kmax
            batch_normalisation := a.batch_normalisation
            dropout_parts :=
              (a.dropout_keep_probabilities.filter
                (fun p => !(p == 0) && !(p == 1))).map toString
            count_sum_feature := a.count_sum
            latent_size := a.latent_size
            hidden_sizes := a.hidden_sizes
            mc_training := a.number_of_monte_carlo_samples.1
            iw_training := a.number_of_importance_samples.1
            kl_weight_value := a.kl_weight
            clf_weight_value := a.clf_weight
            number_of_labeled_examples := a.number_of_labeled_examples
            number_of_warm_up_epochs := a.number_of_warm_up_epochs }
    else .error (.keyError dn)

/-- Does an init-prefix outcome model a raised TypeError? -/
def raisesTypeError {α : Type} : Except PyError α → Bool
  | .error (.typeError _) => true
  | _ => false

/-- InitArgs with every defaulted parameter of __init__ at its declared
default (prior_probabilities None, number_of_latent_clusters 1,
proportion_of_free_KL_nats 0.8, reconstruction_distribution None,
number_of_reconstruction_classes None, batch_normalisation True, empty
dropout list, count_sum True, no warm-up, kl_weight 1, clf_weight 1,
no labeled examples), and the required sizes filled concretely. -/
def defaultInitArgs : InitArgs :=
  { feature_size := 10
    latent_size := 2
    hidden_sizes := [16]
    number_of_monte_carlo_samples := (1, 1)
    number_of_importance_samples := (1, 1)
    analytical_kl_term := false
    prior_probabilities := none
    number_of_latent_clusters := 1
    proportion_of_free_KL_nats := 4/5
    reconstruction_distribution := none
    number_of_reconstruction_classes := none
    batch_normalisation := true
    dropout_keep_probabilities := []
    count_sum := true
    number_of_warm_up_epochs := 0
    kl_weight := 1
    clf_weight := 1
    number_of_labeled_examples := 0 }

/-- Shallow embedding of the name property (source lines 253 to 323),
parametric in the external normaliseString helper.  The source appends
the free-nats part to the local variable reconstruction_part (line 313),
which is only assigned later (line 319); in Python that reference raises
UnboundLocalError, so the property only returns a string when
proportion_of_free_KL_nats is falsy (zero). -/
def gmvaeName (normaliseString : String → String) (c : ModelConfig) :
    Except PyError String :=
  let latentParts :=
    [normaliseString c.latent_distribution_name]
    ++ (if strContains c.latent_distribution_name "mixture" then
          ["c_" ++ toString c.K] else [])
    ++ (if c.prior_probabilities_method ≠ "uniform" then
          ["p_" ++ c.prior_probabilities_method] else [])
  let reconstructionParts :=
    [normaliseString c.reconstruction_distribution_name]
    ++ (if c.k_max ≠ 0 then ["k_" ++ toString c.k_max] else [])
    ++ (if c.count_sum_feature then ["sum"] else [])
    ++ ["l_" ++ toString c.latent_size]
    ++ ["h_" ++ String.intercalate "_" (c.hidden_sizes.map toString)]
    ++ ["mc_" ++ toString c.mc_training]
    ++ ["iw_" ++ toString c.iw_training]
    ++ (if c.analytical_kl_term then ["kl"] else [])
    ++ (if c.batch_normalisation then ["bn"] else [])
    ++ (if c.dropout_parts.length > 0 then
          ["dropout_" ++ String.intercalate "_" c.dropout_parts] else [])
    ++ (if c.kl_weight_value ≠ 1 then
          ["klw_" ++ toString c.kl_weight_value] else [])
    ++ (if c.clf_weight_value ≠ 1 then
          ["clfw_" ++ toString c.clf_weight_value] else [])
    ++ (if c.number_of_labeled_examples > 0 then
          ["nl_" ++ toString c.number_of_labeled_examples] else [])
    ++ (if c.number_of_warm_up_epochs ≠ 0 then
          ["wu_" ++ toString c.number_of_warm_up_epochs] else [])
  if c.proportion_of_free_KL_nats ≠ 0 then
    .error (.unboundLocalError "reconstruction_part")
  else
    let latentPart := String.intercalate "-" latentParts
    let reconstructionPart := String.intercalate "-" reconstructionParts
    .ok (c.modelType ++ "/" ++ latentPart ++ "/" ++ reconstructionPart)

/-- ModelConfig corresponding to a model built with the constructor
defaults and a Bernoulli reconstruction distribution with k_max 0: in
particular proportion_of_free_KL_nats keeps its default value 0.8. -/
def exampleConfig : ModelConfig :=
  { modelType := "GMVAE"
    latent_distribution_name := "gaussian mixture"
    prior_probabilities_method := "uniform"
    K := 1
    analytical_kl_term := false
    proportion_of_free_KL_nats := 4/5
    reconstruction_distribution_name := "bernoulli"
    number_of_reconstruction_classes := 1
    k_max := 0
    batch_normalisation := true
    dropout_parts := []
    count_sum_feature := true
    latent_size := 2
    hidden_sizes := [16]
    mc_training := 1
    iw_training := 1
    kl_weight_value := 1
    clf_weight_value := 1
    number_of_labeled_examples := 0
    number_of_warm_up_epochs := 0 }

/-- Observation of one training minibatch step: whether the step count
places it among the roughly eleven monitored steps of its epoch (the
output_at_step schedule), and whether the observed batch loss is NaN.
The optimizer update itself always runs before the check. -/
structure StepData where
  monitored : Bool
  lossIsNaN : Bool
  deriving Repr, DecidableEq

/-- Observations for one epoch: its minibatch steps and the validation
ELBO the post-epoch evaluation pass produces. -/
structure EpochData where
  steps : List StepData
  ELBO_valid : ℚ
  deriving Repr, DecidableEq

/-- Kind of value stored in the duration fields of the status dict:
the literal string "nan" (the already-trained short circuit) or a
formatted wall-clock duration. -/
inductive DurationValue where
  | nanString
  | measured
  deriving Repr, DecidableEq

/-- Model of the status dict returned by train(): the completed flag, the
failure message, the "epochs trained" range (epoch_start,
number_of_epochs), and the two duration fields. -/
structure TrainStatus where
  completed : Bool
  message : Option String
  epochsTrained : Option (ℕ × ℕ)
  trainingDuration : Option DurationValue
  lastEpochDuration : Option DurationValue
  deriving Repr, DecidableEq

/-- Early-stopping and best-checkpoint bookkeeping carried across epochs:
stopped_early, epochs_with_no_improvement (none models the numpy.nan
sentinel stored once stopping triggers), ELBO_valid_early_stopping and
ELBO_valid_maximum (none models negative infinity). -/
structure ESState where
  stoppedEarly : Bool
  epochsWithNoImprovement : Option ℕ
  ELBOValidEarlyStopping : Option ℚ
  ELBOValidMaximum : Option ℚ
  deriving Repr, DecidableEq

/-- Events of one epoch of the monitoring tail of the training loop. -/
structure EpochEvents where
  esComparisonPerformed : Bool
  esCheckpointSaved : Bool
  esCheckpointRemoved : Bool
  bestComparisonPerformed : Bool
  bestCheckpointSaved : Bool
  deriving Repr, DecidableEq

/-- Comparison x < r where r is a rational or negative infinity. -/
def ltMinusInf (x : ℚ) : Option ℚ → Bool
  | none => false
  | some r => decide (x < r)

/-- Comparison x > r where r is a rational or negative infinity. -/
def gtMinusInf (x : ℚ) : Option ℚ → Bool
  | none => true
  | some r => decide (r < x)

/-- Shallow embedding of the per-epoch monitoring tail of train() (source
lines 2130 to 2198): the early-stopping block, guarded by the presence of
a validation set and by stopped_early being false (non-improvement
updates the reference and snapshots the early-stopping checkpoint on the
first bad epoch, improvement resets the counter and removes the
snapshot, and reaching early_stopping_rounds sets stopped_early and
stores the NaN sentinel in the counter); then, unconditionally on
stopped_early, the best-checkpoint comparison against
ELBO_valid_maximum. -/
def epochMonitor (rounds : ℕ) (hasValidation : Bool) (elbo : ℚ) (s : ESState) :
    ESState × EpochEvents :=
  let esPhase :
      ESState × Bool × Bool × Bool :=
    if hasValidation && !s.stoppedEarly then
      let declinePhase : Option ℕ × Option ℚ × Bool × Bool :=
        if ltMinusInf elbo s.ELBOValidEarlyStopping then
          let refAndSave : Option ℚ × Bool :=
            if s.epochsWithNoImprovement = some 0 then (some elbo, true)
            else (s.ELBOValidEarlyStopping, false)
          (s.epochsWithNoImprovement.map (fun c => c + 1),
            refAndSave.1, refAndSave.2, false)
        else
          (some 0, some elbo, false, true)
      let stopPhase : Bool × Option ℕ :=
        match declinePhase.1 with
        | some c => if rounds ≤ c then (true, none) else (false, some c)
        | none => (false, none)
      ({ stoppedEarly := stopPhase.1
         epochsWithNoImprovement := stopPhase.2
         ELBOValidEarlyStopping := declinePhase.2.1
         ELBOValidMaximum := s.ELBOValidMaximum },
        true, declinePhase.2.2.1, declinePhase.2.2.2)
    else
      (s, false, false, false)
  let s1 := esPhase.1
  let bestPhase : ESState × Bool × Bool :=
    if hasValidation then
      if gtMinusInf elbo s1.ELBOValidMaximum then
        ({ s1 with ELBOValidMaximum := some elbo }, true, true)
      else (s1, true, false)
    else (s1, false, false)
  (bestPhase.1,
    { esComparisonPerformed := esPhase.2.1
      esCheckpointSaved := esPhase.2.2.1
      esCheckpointRemoved := esPhase.2.2.2
      bestComparisonPerformed := bestPhase.2.1
      bestCheckpointSaved := bestPhase.2.2 })

/-- Minibatch loop of one epoch (source lines 1568 to 1630): every step
runs the optimizer update; at a monitored step with a NaN batch loss the
method returns immediately.  Result: (optimizer steps run, aborted?). -/
def runEpochSteps : List StepData → ℕ × Bool
  | [] => (0, false)
  | st :: rest =>
    if st.monitored && st.lossIsNaN then (1, true)
    else
      let r := runEpochSteps rest
      (r.1 + 1, r.2)

/-- Epoch loop of train(): runs each epoch's minibatch steps, aborts the
whole run on a NaN at a monitored step, and otherwise runs the monitoring
tail before continuing.  Result: (optimizer steps, per-epoch events of
the epochs whose monitoring tail ran, final monitoring state,
abortedOnNaN). -/
def trainLoop (rounds : ℕ) (hasValidation : Bool) :
    List EpochData → ESState → ℕ × List EpochEvents × ESState × Bool
  | [], s => (0, [], s, false)
  | e :: rest, s =>
    let r := runEpochSteps e.steps
    if r.2 then (r.1, [], s, true)
    else
      let me := epochMonitor rounds hasValidation e.ELBO_valid s
      let t := trainLoop rounds hasValidation rest me.1
      (r.1 + t.1, me.2 :: t.2.1, t.2.2.1, t.2.2.2)

/-- Inputs of one call to train(): the resume epoch recovered from the
checkpoint, the requested epoch count, whether a validation set is
given, early_stopping_rounds, the recovered monitoring state, and the
per-epoch observations supplied by the environment. -/
structure TrainInputs where
  epochStart : ℕ
  numberOfEpochs : ℕ
  hasValidation : Bool
  earlyStoppingRounds : ℕ
  initialES : ESState
  epochData : ℕ → EpochData

/-- Epochs the run will execute: epoch indices epochStart to
numberOfEpochs - 1 with their observations. -/
def trainPlan (i : TrainInputs) : List EpochData :=
  (List.range' i.epochStart (i.numberOfEpochs - i.epochStart)).map i.epochData

/-- Result of one call to train(). -/
structure TrainResult where
  status : TrainStatus
  optimizerSteps : ℕ
  epochEvents : List EpochEvents
  finalES : ESState

/-- Shallow embedding of the control flow of train() (source lines 1190
to 2316): the status dict starts incomplete; when the resume epoch
already meets the requested count the method short-circuits with
completed true, "nan" durations and zero optimizer steps (lines 1271 to
1281); otherwise "epochs trained" is set to the range epoch_start to
number_of_epochs (line 1530) and the epoch loop runs, either aborting
with the NaN failure status (lines 1623 to 1630) or finishing with
completed true. -/
def train (i : TrainInputs) : TrainResult :=
  if i.numberOfEpochs ≤ i.epochStart then
    { status :=
        { completed := true
          message := none
          epochsTrained := some (i.epochStart, i.numberOfEpochs)
          trainingDuration := some .nanString
          lastEpochDuration := some .nanString }
      optimizerSteps := 0
      epochEvents := []
      finalES := i.initialES }
  else
    let r := trainLoop i.earlyStoppingRounds i.hasValidation (trainPlan i) i.initialES
    if r.2.2.2 then
      { status :=
          { completed := false
            message := some "loss became nan"
            epochsTrained := some (i.epochStart, i.numberOfEpochs)
            trainingDuration := some .measured
            lastEpochDuration := some .measured }
        optimizerSteps := r.1
        epochEvents := r.2.1
        finalES := r.2.2.1 }
    else
      { status :=
          { completed := true
            message := none
            epochsTrained := some (i.epochStart, i.numberOfEpochs)
            trainingDuration := some .measured
            lastEpochDuration := some .measured }
        optimizerSteps := r.1
        epochEvents := r.2.1
        finalES := r.2.2.1 }

/-- Does the step sequence contain a NaN loss at a monitored step? -/
def hasMonitoredNaN (l : List StepData) : Bool :=
  l.any (fun st => st.monitored && st.lossIsNaN)

/-- Number of optimizer steps run before the loop stops: every step up to
and including the first monitored NaN step, or all of them. -/
def stepsUpToNaN : List StepData → ℕ
  | [] => 0
  | st :: rest =>
    if st.monitored && st.lossIsNaN then 1 else 1 + stepsUpToNaN rest

/-- Flattened minibatch-step sequence of an epoch plan. -/
def planSteps (plan : List EpochData) : List StepData :=
  (plan.map EpochData.steps).flatten

/-- Monitoring state of a freshly initialised run (source lines 1518 to
1523). -/
def freshESState : ESState :=
  { stoppedEarly := false
    epochsWithNoImprovement := some 0
    ELBOValidEarlyStopping := none
    ELBOValidMaximum := none }

/-- Monitoring state of a run in which early stopping has triggered: the
flag is set, the counter holds the NaN sentinel, and finite reference
values are on record. -/
def stoppedESState : ESState :=
  { stoppedEarly := true
    epochsWithNoImprovement := none
    ELBOValidEarlyStopping := some 0
    ELBOValidMaximum := some 0 }

/-- Monitoring state two non-improving epochs into early stopping, with
reference validation ELBO 1. -/
def almostStoppedESState : ESState :=
  { stoppedEarly := false
    epochsWithNoImprovement := some 2
    ELBOValidEarlyStopping := some 1
    ELBOValidMaximum := some 1 }

/-- Inputs of a ten-epoch fresh run whose epochs 0 and 1 each run one
clean monitored minibatch step and whose epoch 2 observes a NaN training
loss at its first monitored step. -/
def nanAtEpochTwoInputs : TrainInputs :=
  { epochStart := 0
    numberOfEpochs := 10
    hasValidation := false
    earlyStoppingRounds := 10
    initialES := freshESState
    epochData := fun e =>
      if e < 2 then { steps := [{ monitored := true, lossIsNaN := false }], ELBO_valid := 0 }
      else { steps := [{ monitored := true, lossIsNaN := true }], ELBO_valid := 0 } }

/-- Inputs of a resumed run whose checkpoint epoch 10 already exceeds the
requested five epochs. -/
def resumePastTargetInputs : TrainInputs :=
  { epochStart := 10
    numberOfEpochs := 5
    hasValidation := false
    earlyStoppingRounds := 10
    initialES := freshESState
    epochData := fun _ => { steps := [], ELBO_valid := 0 } }

/-- Inputs of a three-epoch fresh run with a validation set and no NaN. -/
def quietRunInputs : TrainInputs :=
  { epochStart := 0
    numberOfEpochs := 3
    hasValidation := true
    earlyStoppingRounds := 10
    initialES := freshESState
    epochData := fun _ =>
      { steps := [{ monitored := true, lossIsNaN := false }], ELBO_valid := 1 } }

/-- InitArgs with every default kept except a valid Bernoulli
reconstruction distribution. -/
def bernoulliDefaultArgs : InitArgs :=
  { defaultInitArgs with reconstruction_distribution := some "bernoulli" }

end SCVAE

namespace SCVAE

/-- C1: the monitored ELBO is, by construction of the loss engine, exactly
the reconstruction term minus the sum of the z-KL and the unclipped y-KL:
ELBO = ENRE - (KL_z + KL_y), for every batch. -/
theorem elbo_eq_enre_sub_kl (b : BatchData) :
    (lossEngine b).ELBO = (lossEngine b).ENRE - ((lossEngine b).KL_z + (lossEngine b).KL_y) := by
  simp [lossEngine]

/-- C2: the training objective satisfies
total_loss = (ENRE - warm_up_weight * kl_weight * (KL_z + clipped KL_y))
           - alpha * classification_loss,
where alpha is clf_weight * (2 + 2 * N_l) when labeled examples are
present, is zero when the batch contains none, and (for a positive
classification weight) is strictly increasing in the number of labeled
examples in the batch. -/
theorem total_loss_formula (b : BatchData) (w : ℚ) (m n : ℕ) :
    (lossEngine b).total_loss =
      ((lossEngine b).ENRE -
        b.warm_up_weight * b.kl_weight * ((lossEngine b).KL_z + (lossEngine b).KL_y_modified)) -
      (lossEngine b).alpha * b.clf_error ∧
    ((lossEngine b).N_l = 0 → (lossEngine b).alpha = 0) ∧
    (0 < (lossEngine b).N_l →
      (lossEngine b).alpha = b.clf_weight * (2 + 2 * (lossEngine b).N_l)) ∧
    (0 < w → m < n → alphaOf w m < alphaOf w n) := by
  refine ⟨by simp [lossEngine], ?_, ?_, ?_⟩
  · intro h
    simp [lossEngine, alphaOf] at h ⊢
    simp [h]
  · intro h
    simp only [lossEngine] at h ⊢
    simp [alphaOf, h]
  · intro hw hmn
    unfold alphaOf
    rcases Nat.eq_zero_or_pos m with hm | hm
    · subst hm
      have hn : (0 : ℚ) < n := by exact_mod_cast hmn
      rw [Nat.cast_zero, if_neg (lt_irrefl (0 : ℚ)), if_pos hn]
      positivity
    · have hmq : (0 : ℚ) < m := by exact_mod_cast hm
      have hnq : (0 : ℚ) < n := lt_trans hmq (by exact_mod_cast hmn)
      rw [if_pos hmq, if_pos hnq]
      have : (m : ℚ) < n := by exact_mod_cast hmn
      nlinarith

/-- Witness for total_loss_formula: a concrete batch with one labeled
example, evaluated with clf_weight 1 and the pair 0 < 1 of label counts. -/
theorem total_loss_formula_witness :
    0 < (1 : ℚ) ∧ 0 < 1 ∧
      alphaOf 1 (0 : ℕ) < alphaOf 1 (1 : ℕ) := by
  refine ⟨by norm_num, by norm_num, ?_⟩
  exact (total_loss_formula
    { KL_z_sum := [1], KL_y_each := [1], log_p_sum := [-2], clf_mask := [0],
      clf_error := 0, warm_up_weight := 1, kl_weight := 1, clf_weight := 1,
      proportion_of_free_KL_nats := 4/5, p_y_entropy := 1 }
    1 0 1).2.2.2 (by norm_num) (by norm_num)

/-- C3: with a non-zero free-nats proportion, the y-KL entering the
weighted objective is the floored value
KL_y_modified = threshold + max (KL_y - threshold) 0 with
threshold = proportion_of_free_KL_nats * H[p(y)] (the code sets H[p(y)] to
log K for a uniform prior), so only the excess of KL_y above the threshold
varies the penalty, while the monitored KL_y field stays unclipped and the
monitored KL is KL_z plus that unclipped value. -/
theorem free_nats_floor (b : BatchData) (h : b.proportion_of_free_KL_nats ≠ 0) :
    (lossEngine b).KL_y_threshold = b.proportion_of_free_KL_nats * b.p_y_entropy ∧
    (lossEngine b).KL_y_modified =
      (lossEngine b).KL_y_threshold +
        max ((lossEngine b).KL_y - (lossEngine b).KL_y_threshold) 0 ∧
    (lossEngine b).KL_y =
      weightedLoss b.KL_y_each (b.clf_mask.map (fun m => 1 - m)) ∧
    (lossEngine b).KL = (lossEngine b).KL_z + (lossEngine b).KL_y ∧
    (lossEngine b).ELBO_weighted =
      (lossEngine b).ENRE -
        b.warm_up_weight * b.kl_weight *
          ((lossEngine b).KL_z + (lossEngine b).KL_y_modified) := by
  refine ⟨by simp [lossEngine], ?_, by simp [lossEngine], by simp [lossEngine],
    by simp [lossEngine]⟩
  simp only [lossEngine, if_pos h, h, ne_eq, not_false_eq_true, if_true]
  set kly := weightedLoss b.KL_y_each (b.clf_mask.map (fun m => 1 - m)) with hkly
  set th := b.proportion_of_free_KL_nats * b.p_y_entropy with hth
  by_cases hgt : kly > th
  · simp only [if_pos hgt]
    rw [max_eq_left (by linarith)]
    ring
  · simp only [if_neg hgt]
    rw [max_eq_right (by push_neg at hgt; linarith)]
    ring

/-- Witness for free_nats_floor: the default free-nats proportion 4/5 on a
concrete two-example batch. -/
theorem free_nats_floor_witness :
    ((4 : ℚ)/5 ≠ 0) ∧
      (lossEngine
        { KL_z_sum := [1, 2], KL_y_each := [1, 3], log_p_sum := [-2, -4],
          clf_mask := [0, 1], clf_error := 1, warm_up_weight := 1/2,
          kl_weight := 1, clf_weight := 1,
          proportion_of_free_KL_nats := 4/5,
          p_y_entropy := 2 }).KL_y_modified =
      (lossEngine
        { KL_z_sum := [1, 2], KL_y_each := [1, 3], log_p_sum := [-2, -4],
          clf_mask := [0, 1], clf_error := 1, warm_up_weight := 1/2,
          kl_weight := 1, clf_weight := 1,
          proportion_of_free_KL_nats := 4/5,
          p_y_entropy := 2 }).KL_y_threshold +
        max ((lossEngine
        { KL_z_sum := [1, 2], KL_y_each := [1, 3], log_p_sum := [-2, -4],
          clf_mask := [0, 1], clf_error := 1, warm_up_weight := 1/2,
          kl_weight := 1, clf_weight := 1,
          proportion_of_free_KL_nats := 4/5,
          p_y_entropy := 2 }).KL_y -
          (lossEngine
        { KL_z_sum := [1, 2], KL_y_each := [1, 3], log_p_sum := [-2, -4],
          clf_mask := [0, 1], clf_error := 1, warm_up_weight := 1/2,
          kl_weight := 1, clf_weight := 1,
          proportion_of_free_KL_nats := 4/5,
          p_y_entropy := 2 }).KL_y_threshold) 0 := by
  refine ⟨by norm_num, ?_⟩
  exact (free_nats_floor _ (by norm_num)).2.1

/-- Helper: hasMonitoredNaN on a cons cell. -/
theorem hasMonitoredNaN_cons (st : StepData) (rest : List StepData) :
    hasMonitoredNaN (st :: rest) =
      ((st.monitored && st.lossIsNaN) || hasMonitoredNaN rest) := by
  simp [hasMonitoredNaN]

/-- Helper: hasMonitoredNaN over an appended step list. -/
theorem hasMonitoredNaN_append (a b : List StepData) :
    hasMonitoredNaN (a ++ b) = (hasMonitoredNaN a || hasMonitoredNaN b) := by
  simp [hasMonitoredNaN, List.any_append]

/-- Helper: the one-epoch minibatch loop runs stepsUpToNaN steps and
aborts exactly when a monitored NaN step occurs. -/
theorem runEpochSteps_eq (l : List StepData) :
    runEpochSteps l = (stepsUpToNaN l, hasMonitoredNaN l) := by
  induction l with
  | nil => rfl
  | cons st rest ih =>
    rw [runEpochSteps, stepsUpToNaN, hasMonitoredNaN_cons]
    by_cases h : (st.monitored && st.lossIsNaN) = true
    · rw [if_pos h, if_pos h, h, Bool.true_or]
    · rw [if_neg h, if_neg h, ih, Bool.eq_false_iff.mpr h, Bool.false_or]
      rw [Nat.add_comm]

/-- Helper: stepsUpToNaN over an appended step list. -/
theorem stepsUpToNaN_append (a b : List StepData) :
    stepsUpToNaN (a ++ b) =
      if hasMonitoredNaN a then stepsUpToNaN a else a.length + stepsUpToNaN b := by
  induction a with
  | nil => simp [hasMonitoredNaN, stepsUpToNaN]
  | cons st rest ih =>
    rw [List.cons_append, stepsUpToNaN, stepsUpToNaN, hasMonitoredNaN_cons]
    by_cases h : (st.monitored && st.lossIsNaN) = true
    · rw [if_pos h, if_pos h, h, Bool.true_or, if_pos rfl]
    · rw [if_neg h, if_neg h, ih, Bool.eq_false_iff.mpr h, Bool.false_or]
      by_cases h2 : hasMonitoredNaN rest = true
      · rw [if_pos h2, if_pos h2]
      · rw [if_neg h2, if_neg h2, List.length_cons]
        omega

/-- Helper: a step list without monitored NaN runs to its full length. -/
theorem stepsUpToNaN_of_no_nan (l : List StepData) (h : hasMonitoredNaN l = false) :
    stepsUpToNaN l = l.length := by
  induction l with
  | nil => rfl
  | cons st rest ih =>
    rw [hasMonitoredNaN_cons, Bool.or_eq_false_iff] at h
    rw [stepsUpToNaN, if_neg (by rw [h.1]; exact Bool.false_ne_true), ih h.2,
      List.length_cons, Nat.add_comm]

/-- Helper: the epoch loop runs stepsUpToNaN of the flattened plan as
optimizer steps, aborts exactly when the flattened plan has a monitored
NaN step, and otherwise records one monitoring event per epoch. -/
theorem trainLoop_spec (rounds : ℕ) (hv : Bool) (plan : List EpochData) (s : ESState) :
    (trainLoop rounds hv plan s).1 = stepsUpToNaN (planSteps plan) ∧
    (trainLoop rounds hv plan s).2.2.2 = hasMonitoredNaN (planSteps plan) ∧
    (hasMonitoredNaN (planSteps plan) = false →
      (trainLoop rounds hv plan s).2.1.length = plan.length) := by
  induction plan generalizing s with
  | nil => simp [trainLoop, planSteps, stepsUpToNaN, hasMonitoredNaN]
  | cons e rest ih =>
    have hsteps : planSteps (e :: rest) = e.steps ++ planSteps rest := by
      simp [planSteps]
    by_cases h : hasMonitoredNaN e.steps = true
    · have habort : (runEpochSteps e.steps).2 = true := by
        rw [runEpochSteps_eq]; exact h
      have hrun : (runEpochSteps e.steps).1 = stepsUpToNaN e.steps := by
        rw [runEpochSteps_eq]
      refine ⟨?_, ?_, ?_⟩
      · rw [trainLoop, if_pos habort, hrun, hsteps, stepsUpToNaN_append, if_pos h]
      · rw [trainLoop, if_pos habort, hsteps, hasMonitoredNaN_append, h, Bool.true_or]
      · intro hno
        rw [hsteps, hasMonitoredNaN_append, h, Bool.true_or] at hno
        exact absurd hno (by simp)
    · have hfalse : hasMonitoredNaN e.steps = false := by simpa using h
      have habort : ¬ (runEpochSteps e.steps).2 = true := by
        rw [runEpochSteps_eq]; simp [hfalse]
      have hrun : (runEpochSteps e.steps).1 = stepsUpToNaN e.steps := by
        rw [runEpochSteps_eq]
      have hlen := stepsUpToNaN_of_no_nan e.steps hfalse
      obtain ⟨ih1, ih2, ih3⟩ := ih ((epochMonitor rounds hv e.ELBO_valid s).1)
      refine ⟨?_, ?_, ?_⟩
      · rw [trainLoop, if_neg habort, hsteps, stepsUpToNaN_append, if_neg (by simp [hfalse])]
        dsimp only
        rw [hrun, hlen, ih1]
      · rw [trainLoop, if_neg habort, hsteps, hasMonitoredNaN_append, hfalse, Bool.false_or]
        exact ih2
      · intro hno
        rw [hsteps, hasMonitoredNaN_append, hfalse, Bool.false_or] at hno
        rw [trainLoop, if_neg habort]
        dsimp only
        rw [List.length_cons, ih3 hno, List.length_cons]

/-- Helper: the monitoring tail never touches the stopped_early flag of a
run that has already stopped early, and skips the whole early-stopping
comparison block for it. -/
theorem epochMonitor_stopped (rounds : ℕ) (hv : Bool) (elbo : ℚ) (s : ESState)
    (h : s.stoppedEarly = true) :
    (epochMonitor rounds hv elbo s).1.stoppedEarly = true ∧
    (epochMonitor rounds hv elbo s).2.esComparisonPerformed = false := by
  cases hv
  · simp [epochMonitor, h]
  · by_cases hbest : gtMinusInf elbo s.ELBOValidMaximum = true <;>
      simp [epochMonitor, h, hbest]

/-- Helper: the epoch loop preserves the stopped_early flag and performs
no further early-stopping comparisons once it is set. -/
theorem trainLoop_stopped (rounds : ℕ) (hv : Bool) (plan : List EpochData)
    (s : ESState) (h : s.stoppedEarly = true) :
    (trainLoop rounds hv plan s).2.2.1.stoppedEarly = true ∧
    ∀ ev ∈ (trainLoop rounds hv plan s).2.1, ev.esComparisonPerformed = false := by
  induction plan generalizing s with
  | nil => simpa [trainLoop] using h
  | cons e rest ih =>
    by_cases hab : (runEpochSteps e.steps).2 = true
    · simpa [trainLoop, hab] using h
    · have hab2 : (runEpochSteps e.steps).2 = false := by simpa using hab
      obtain ⟨hm1, hm2⟩ := epochMonitor_stopped rounds hv e.ELBO_valid s h
      obtain ⟨ih1, ih2⟩ := ih ((epochMonitor rounds hv e.ELBO_valid s).1) hm1
      refine ⟨by simpa [trainLoop, hab2] using ih1, ?_⟩
      intro ev hev
      simp [trainLoop, hab2] at hev
      rcases hev with hev | hev
      · rw [hev]; exact hm2
      · exact ih2 ev hev

/-- C4 counterexample: a fresh ten-epoch run observing a NaN training
loss at the monitored step of epoch 2 aborts after its third optimizer
step with the NaN failure message, yet its "epochs trained" field holds
the full requested range 0 to 10, not the partial range actually
trained (0 to 2, or 0 to 3 counting the aborted epoch). -/
theorem train_nan_reports_requested_range :
    (train nanAtEpochTwoInputs).status.completed = false ∧
    (train nanAtEpochTwoInputs).status.message = some "loss became nan" ∧
    (train nanAtEpochTwoInputs).optimizerSteps = 3 ∧
    (train nanAtEpochTwoInputs).status.epochsTrained = some (0, 10) ∧
    (some ((0 : ℕ), (10 : ℕ)) ≠ some ((0 : ℕ), (2 : ℕ))) ∧
    (some ((0 : ℕ), (10 : ℕ)) ≠ some ((0 : ℕ), (3 : ℕ))) := by
  decide

/-- C4 (amended): a training run whose observed training loss becomes NaN
at a monitored step returns immediately from within the epoch loop (the
optimizer steps run are exactly those up to and including the NaN step),
with completed false, the descriptive message "loss became nan", both
durations recorded, and the "epochs trained" field holding the requested
range epoch_start to number_of_epochs that was set before the loop -- not
the partial range actually trained; no exception escapes (the embedded
train is a total function returning a status). -/
theorem train_nan_abort (i : TrainInputs)
    (h1 : i.epochStart < i.numberOfEpochs)
    (h2 : hasMonitoredNaN (planSteps (trainPlan i)) = true) :
    (train i).status.completed = false ∧
    (train i).status.message = some "loss became nan" ∧
    (train i).status.trainingDuration = some DurationValue.measured ∧
    (train i).status.lastEpochDuration = some DurationValue.measured ∧
    (train i).status.epochsTrained = some (i.epochStart, i.numberOfEpochs) ∧
    (train i).optimizerSteps = stepsUpToNaN (planSteps (trainPlan i)) := by
  have hle : ¬ i.numberOfEpochs ≤ i.epochStart := by omega
  obtain ⟨hsteps, habort, -⟩ :=
    trainLoop_spec i.earlyStoppingRounds i.hasValidation (trainPlan i) i.initialES
  rw [h2] at habort
  simp only [train, if_neg hle, habort, if_pos rfl]
  exact ⟨rfl, rfl, rfl, rfl, rfl, hsteps⟩

/-- Witness for train_nan_abort: the concrete NaN-at-epoch-2 run. -/
theorem train_nan_abort_witness :
    nanAtEpochTwoInputs.epochStart < nanAtEpochTwoInputs.numberOfEpochs ∧
    hasMonitoredNaN (planSteps (trainPlan nanAtEpochTwoInputs)) = true ∧
    (train nanAtEpochTwoInputs).status.completed = false ∧
    (train nanAtEpochTwoInputs).optimizerSteps =
      stepsUpToNaN (planSteps (trainPlan nanAtEpochTwoInputs)) := by
  refine ⟨by decide, by decide, ?_⟩
  have h := train_nan_abort nanAtEpochTwoInputs (by decide) (by decide)
  exact ⟨h.1, h.2.2.2.2.2⟩

/-- C5: a call to train whose resume epoch recovered from the checkpoint
meets or exceeds the requested number of epochs performs zero optimizer
steps and returns the status with completed true (with the "nan" duration
strings and the epochs-trained range of the short-circuit path). -/
theorem train_short_circuit (i : TrainInputs)
    (h : i.numberOfEpochs ≤ i.epochStart) :
    (train i).optimizerSteps = 0 ∧
    (train i).status.completed = true ∧
    (train i).status.message = none ∧
    (train i).status.epochsTrained = some (i.epochStart, i.numberOfEpochs) ∧
    (train i).status.trainingDuration = some DurationValue.nanString ∧
    (train i).status.lastEpochDuration = some DurationValue.nanString := by
  simp [train, if_pos h]

/-- Witness for train_short_circuit: resuming at epoch 10 with five
epochs requested. -/
theorem train_short_circuit_witness :
    resumePastTargetInputs.numberOfEpochs ≤ resumePastTargetInputs.epochStart ∧
    (train resumePastTargetInputs).optimizerSteps = 0 ∧
    (train resumePastTargetInputs).status.completed = true := by
  refine ⟨by decide, ?_⟩
  have h := train_short_circuit resumePastTargetInputs (by decide)
  exact ⟨h.1, h.2.1⟩

/-- C6 counterexample: in a run whose stopped_early flag is set, the
best-checkpoint rule is not disabled: the monitoring tail still compares
the epoch's validation ELBO against the best seen and still saves a new
best checkpoint, so the claim that comparisons against the "best"
checkpoint rule are disabled after early stopping fails at this state. -/
theorem best_rule_alive_after_early_stop :
    stoppedESState.stoppedEarly = true ∧
    (epochMonitor 10 true 1 stoppedESState).2.bestComparisonPerformed = true ∧
    (epochMonitor 10 true 1 stoppedESState).2.bestCheckpointSaved = true := by
  refine ⟨rfl, ?_, ?_⟩ <;> decide

/-- C6 (amended): with a validation set, once the consecutive
non-improving count reaches early_stopping_rounds the stopped_early flag
becomes true (and only then), it stays true through every remaining epoch
of the run, from that point on the early-stopping-reference comparison
block is skipped -- while the best-checkpoint comparison still runs --
and training still continues to the configured epoch count (a NaN-free
run completes with one monitoring record per remaining epoch and all
planned optimizer steps executed, regardless of the flag). -/
theorem early_stopping_flag_behaviour (rounds : ℕ) (elbo : ℚ) (s : ESState)
    (c : ℕ) (plan : List EpochData) (i : TrainInputs) :
    (s.stoppedEarly = false → s.epochsWithNoImprovement = some c →
      ((epochMonitor rounds true elbo s).1.stoppedEarly = true ↔
        rounds ≤ (if ltMinusInf elbo s.ELBOValidEarlyStopping then c + 1 else 0))) ∧
    (s.stoppedEarly = true →
      (epochMonitor rounds true elbo s).1.stoppedEarly = true ∧
      (epochMonitor rounds true elbo s).2.esComparisonPerformed = false ∧
      (epochMonitor rounds true elbo s).2.bestComparisonPerformed = true) ∧
    (s.stoppedEarly = true →
      (trainLoop rounds true plan s).2.2.1.stoppedEarly = true ∧
      ∀ ev ∈ (trainLoop rounds true plan s).2.1, ev.esComparisonPerformed = false) ∧
    (hasMonitoredNaN (planSteps (trainPlan i)) = false →
      i.epochStart < i.numberOfEpochs →
      (train i).status.completed = true ∧
      (train i).epochEvents.length = i.numberOfEpochs - i.epochStart ∧
      (train i).optimizerSteps = (planSteps (trainPlan i)).length) := by
  refine ⟨?_, ?_, ?_, ?_⟩
  · intro hstop hcount
    by_cases hlt : ltMinusInf elbo s.ELBOValidEarlyStopping = true
    · rw [if_pos hlt]
      by_cases hr : rounds ≤ c + 1
      · simp only [epochMonitor, hstop, hcount, hlt, hr]
        simp [hr]
        split <;> rfl
      · simp only [epochMonitor, hstop, hcount, hlt, hr]
        simp [hr]
        split <;> simp
    · rw [if_neg hlt]
      by_cases hr : rounds ≤ 0
      · simp only [epochMonitor, hstop, hcount, hlt, hr]
        simp [hr]
        split <;> rfl
      · simp only [epochMonitor, hstop, hcount, hlt, hr]
        simp [hr]
        split <;> simp
  · intro hstop
    obtain ⟨hm1, hm2⟩ := epochMonitor_stopped rounds true elbo s hstop
    refine ⟨hm1, hm2, ?_⟩
    by_cases hbest : gtMinusInf elbo s.ELBOValidMaximum = true <;>
      simp [epochMonitor, hstop, hbest]
  · intro hstop
    exact trainLoop_stopped rounds true plan s hstop
  · intro hno hlt
    have hle : ¬ i.numberOfEpochs ≤ i.epochStart := by omega
    obtain ⟨hsteps, habort, hevs⟩ :=
      trainLoop_spec i.earlyStoppingRounds i.hasValidation (trainPlan i) i.initialES
    rw [hno] at habort
    have hplanlen : (trainPlan i).length = i.numberOfEpochs - i.epochStart := by
      simp [trainPlan]
    simp only [train, if_neg hle, habort, Bool.false_eq_true, if_neg not_false]
    refine ⟨trivial, ?_, ?_⟩
    · rw [hevs hno, hplanlen]
    · rw [hsteps, stepsUpToNaN_of_no_nan _ hno]

/-- Witness for early_stopping_flag_behaviour: a state two bad epochs into
early stopping with rounds 3 (the next decline triggers the flag), the
stopped state (the flag persists and the comparison block is skipped),
and the concrete quiet three-epoch run (training continues to the end). -/
theorem early_stopping_flag_behaviour_witness :
    almostStoppedESState.stoppedEarly = false ∧
    almostStoppedESState.epochsWithNoImprovement = some 2 ∧
    ((epochMonitor 3 true 0 almostStoppedESState).1.stoppedEarly = true ↔
      3 ≤ (if ltMinusInf 0 almostStoppedESState.ELBOValidEarlyStopping then 2 + 1 else 0)) ∧
    hasMonitoredNaN (planSteps (trainPlan quietRunInputs)) = false ∧
    quietRunInputs.epochStart < quietRunInputs.numberOfEpochs ∧
    (train quietRunInputs).status.completed = true := by
  refine ⟨rfl, rfl, ?_, by decide, by decide, ?_⟩
  · exact (early_stopping_flag_behaviour 3 0 almostStoppedESState 2 [] quietRunInputs).1
      rfl rfl
  · exact ((early_stopping_flag_behaviour 3 0 almostStoppedESState 2 [] quietRunInputs).2.2.2
      (by decide) (by decide)).1

/-- C7: a call to evaluate whose output_versions list has more than three
entries or a duplicate entry raises ValueError during argument
validation, before the checkpoint state is read, whatever the checkpoint
situation is. -/
theorem evaluate_rejects_invalid_output_versions (vs : List String) (ce : Bool)
    (h : 3 < vs.length ∨ vs.dedup.length ≠ vs.length) :
    (∃ msg, (evaluate (.explicitList vs) ce).result = .error (.valueError msg)) ∧
    (evaluate (.explicitList vs) ce).checkpointTouched = false := by
  by_cases h3 : vs.length > 3
  · constructor
    · exact ⟨"Can only output at most 3 sets", by simp [evaluate, resolveOutputVersions, h3]⟩
    · simp [evaluate, resolveOutputVersions, h3]
  · have hd : vs.length ≠ vs.dedup.length := by
      rcases h with h | h
      · omega
      · exact fun hc => h hc.symm
    constructor
    · exact ⟨"Cannot output duplicate sets", by simp [evaluate, resolveOutputVersions, h3, hd]⟩
    · simp [evaluate, resolveOutputVersions, h3, hd]

/-- Witness for evaluate_rejects_invalid_output_versions: the spec's
duplicate request, with a checkpoint present. -/
theorem evaluate_rejects_invalid_output_versions_witness :
    (3 < (["reconstructed", "reconstructed"] : List String).length ∨
      (["reconstructed", "reconstructed"] : List String).dedup.length ≠
        (["reconstructed", "reconstructed"] : List String).length) ∧
    (evaluate (.explicitList ["reconstructed", "reconstructed"]) true).checkpointTouched
      = false := by
  have h : 3 < (["reconstructed", "reconstructed"] : List String).length ∨
      (["reconstructed", "reconstructed"] : List String).dedup.length ≠
        (["reconstructed", "reconstructed"] : List String).length :=
    Or.inr (by decide)
  exact ⟨h, (evaluate_rejects_invalid_output_versions _ true h).2⟩

/-- C8: a call to evaluate with a valid output-kind request against a run
with no checkpoint reads the checkpoint state, finds none, and returns a
None output per requested kind without raising. -/
theorem evaluate_not_trained (ov : OutputVersionsArg) (vs : List String)
    (h : resolveOutputVersions ov = .ok vs) :
    (evaluate ov false).result = .ok (vs.map fun _ => none) ∧
    (evaluate ov false).checkpointTouched = true := by
  simp [evaluate, h]

/-- Witness for evaluate_not_trained: the default "all" request. -/
theorem evaluate_not_trained_witness :
    resolveOutputVersions .all =
      .ok ["transformed", "reconstructed", "latent"] ∧
    (evaluate .all false).result =
      .ok ((["transformed", "reconstructed", "latent"] : List String).map fun _ => none) := by
  exact ⟨rfl, (evaluate_not_trained .all _ rfl).1⟩

/-- C9 (code bug): a model configuration with the default free-nats
proportion 0.8 makes the name property raise UnboundLocalError instead of
evaluating to a string: line 313 appends the free-nats part to the local
reconstruction_part, which is only assigned at line 319, an evident typo
for the reconstruction_parts list used by every other branch.  The
embedded name therefore errors on exampleConfig (defaults plus a
Bernoulli reconstruction distribution). -/
theorem name_raises_unbound_local :
    gmvaeName (fun s => s) exampleConfig =
      Except.error (PyError.unboundLocalError "reconstruction_part") := by
  have h : exampleConfig.proportion_of_free_KL_nats ≠ 0 := by
    norm_num [exampleConfig]
  simp [gmvaeName, h]

/-- C10 counterexample: the all-defaults constructor call (which leaves
both reconstruction_distribution and number_of_reconstruction_classes at
None) raises KeyError at the distributions registry lookup of line 118,
before the number_of_reconstruction_classes + 1 of line 122 is reached,
so it does not raise the claimed TypeError. -/
theorem init_defaults_raise_keyerror :
    gmvaeInit defaultInitArgs = Except.error (PyError.keyError "None") ∧
    raisesTypeError (gmvaeInit defaultInitArgs) = false := by
  exact ⟨rfl, rfl⟩

/-- C10 (amended): when reconstruction_distribution names a registered
distribution and number_of_reconstruction_classes is left at its default
None, construction raises TypeError at number_of_reconstruction_classes
+ 1; and the configuration prefix only succeeds when a number is
supplied for number_of_reconstruction_classes. -/
theorem init_requires_reconstruction_classes (a : InitArgs) (dn : String)
    (h1 : a.reconstruction_distribution = some dn)
    (h2 : dn ∈ validDistributionNames)
    (h3 : a.number_of_reconstruction_classes = none) :
    (gmvaeInit a =
      Except.error (PyError.typeError
        "unsupported operand type for +: NoneType and int")) ∧
    ∀ b : InitArgs, ∀ c : ModelConfig, gmvaeInit b = Except.ok c →
      b.number_of_reconstruction_classes.isSome = true := by
  constructor
  · simp only [gmvaeInit, h1, h3]
    rw [if_pos h2]
  · intro b c h
    simp only [gmvaeInit] at h
    rcases hb : b.reconstruction_distribution with - | dn2
    · rw [hb] at h
      simp at h
    · rw [hb] at h
      dsimp only at h
      by_cases hdn : dn2 ∈ validDistributionNames
      · rw [if_pos hdn] at h
        rcases hc : b.number_of_reconstruction_classes with - | k
        · rw [hc] at h
          simp at h
        · simp [hc]
      · rw [if_neg hdn] at h
        simp at h

/-- Witness for init_requires_reconstruction_classes: constructor
defaults plus a Bernoulli reconstruction distribution. -/
theorem init_requires_reconstruction_classes_witness :
    bernoulliDefaultArgs.reconstruction_distribution = some "bernoulli" ∧
    "bernoulli" ∈ validDistributionNames ∧
    bernoulliDefaultArgs.number_of_reconstruction_classes = none ∧
    gmvaeInit bernoulliDefaultArgs =
      Except.error (PyError.typeError
        "unsupported operand type for +: NoneType and int") := by
  refine ⟨rfl, by decide, rfl, ?_⟩
  exact (init_requires_reconstruction_classes bernoulliDefaultArgs "bernoulli"
    rfl (by decide) rfl).1

end SCVAE
